import Mathlib

/-!
Shallow embedding of the learning-platform core: the data model and row-level
security policies from `supabase/migrations/20251115132526_create_learning_platform_schema.sql`,
the progress engine from `src/components/player/CoursePlayer.tsx`, the enrollment
flow from `src/components/courses/CourseDetail.tsx` (`handleEnroll`), the
certificate flow from `src/components/student/StudentDashboard.tsx`
(`handleGenerateCertificate`), and the player-view wiring from `src/App.tsx`.

Identifiers are modelled as `String` (uuids in the source), timestamps as `Nat`,
and SQL `integer` order indexes as `Int`.
-/

namespace LP

/-- Row of the `courses` table (columns the core logic reads). -/
structure Course where
  id : String
  instructor_id : String
  is_published : Bool
deriving DecidableEq

/-- Row of the `course_sections` table. -/
structure CourseSection where
  id : String
  course_id : String
  order_index : Int
deriving DecidableEq

/-- Row of the `lessons` table (columns the core logic reads). -/
structure Lesson where
  id : String
  section_id : String
  order_index : Int
  is_preview : Bool
deriving DecidableEq

/-- Row of the `enrollments` table. `completed_at` is nullable;
`progress_percentage` defaults to 0. -/
structure Enrollment where
  id : String
  student_id : String
  course_id : String
  enrolled_at : Nat
  completed_at : Option Nat
  progress_percentage : Nat
deriving DecidableEq

/-- Row of the `lesson_progress` table, keyed by the unique pair
`(enrollment_id, lesson_id)`. -/
structure LessonProgress where
  enrollment_id : String
  lesson_id : String
  watched_seconds : Nat
  is_completed : Bool
  last_watched_at : Nat
deriving DecidableEq

/-- Row of the `certificates` table; `enrollment_id` is UNIQUE,
`certificate_url` is nullable. -/
structure Certificate where
  id : String
  enrollment_id : String
  certificate_url : Option String
  issued_at : Nat
deriving DecidableEq

/-- Persistent state: the tables of the schema that the claims touch. -/
structure DB where
  courses : List Course
  sections : List CourseSection
  lessons : List Lesson
  enrollments : List Enrollment
  certificates : List Certificate
deriving DecidableEq

/-- RLS policy "Users can view lessons of accessible courses"
(schema lines 276-293): `TO authenticated`, allowed when the owning section
joins to a course that is published, or owned by the actor, or in which the
actor has an enrollment. The policy never reads `lessons.is_preview`. -/
def lessonSelectAllowed (db : DB) (uid : Option String) (l : Lesson) : Bool :=
  match uid with
  | none => false
  | some u =>
    db.sections.any fun cs =>
      cs.id == l.section_id &&
      db.courses.any fun c =>
        c.id == cs.course_id &&
        (c.is_published || c.instructor_id == u ||
          db.enrollments.any fun e => e.course_id == c.id && e.student_id == u)

/-- RLS policy "System can create certificates" (schema lines 370-379):
`TO authenticated`, `WITH CHECK` that the referenced enrollment exists and
belongs to the actor. The policy does not read `completed_at`. -/
def certificateInsertAllowed (db : DB) (uid : Option String) (enrollmentId : String) : Bool :=
  match uid with
  | none => false
  | some u => db.enrollments.any fun e => e.id == enrollmentId && e.student_id == u

/-- Certificate insert through the storage layer: performed only when the RLS
insert policy allows it, otherwise rejected. -/
def insertCertificate (db : DB) (uid : Option String) (c : Certificate) : Option DB :=
  if certificateInsertAllowed db uid c.enrollment_id then
    some { db with certificates := db.certificates ++ [c] }
  else none

/-- RLS policy "Students can update own enrollments" (schema lines 318-322):
`USING (student_id = auth.uid()) WITH CHECK (student_id = auth.uid())`.
Both the existing row and the replacement row must belong to the actor; no
other column is constrained. -/
def enrollmentUpdateAllowed (uid : Option String) (oldRow newRow : Enrollment) : Bool :=
  match uid with
  | none => false
  | some u => oldRow.student_id == u && newRow.student_id == u

/-- `loadCourseContent` (CoursePlayer.tsx lines 31-60): fetch the sections of
`courseId` ordered by `order_index`, each paired with its lessons sorted by
`order_index`. -/
def loadCourseContent (db : DB) (courseId : String) : List (CourseSection × List Lesson) :=
  ((db.sections.filter fun s => s.course_id == courseId).mergeSort
      (fun a b => a.order_index ≤ b.order_index)).map
    fun s => (s, (db.lessons.filter fun l => l.section_id == s.id).mergeSort
      (fun a b => a.order_index ≤ b.order_index))

/-- CoursePlayer.tsx line 112:
`sections.reduce((sum, section) => sum + section.lessons.length, 0)`. -/
def totalLessons (sections : List (CourseSection × List Lesson)) : Nat :=
  sections.foldl (fun sum s => sum + s.2.length) 0

/-- CoursePlayer.tsx line 113:
`Object.values(progress).filter(p => p.is_completed).length` over the
enrollment's progress rows. -/
def completedLessons (progress : List LessonProgress) : Nat :=
  (progress.filter fun p => p.is_completed).length

/-- JavaScript `Math.round` on the nonnegative rational `num / den` (`den > 0`):
half-up rounding, `floor(num / den + 1 / 2)`. -/
def mathRound (num den : Nat) : Nat :=
  (2 * num + den) / (2 * den)

/-- CoursePlayer.tsx line 114:
`totalLessons > 0 ? Math.round((completedLessons / totalLessons) * 100) : 0`. -/
def progressPercentage (sections : List (CourseSection × List Lesson))
    (progress : List LessonProgress) : Nat :=
  if totalLessons sections > 0 then
    mathRound (completedLessons progress * 100) (totalLessons sections)
  else 0

/-- `updateEnrollmentProgress` (CoursePlayer.tsx lines 110-128): write the
recomputed percentage, and set `completed_at` to `now` when the percentage is
100 and to null otherwise. -/
def updateEnrollmentProgress (sections : List (CourseSection × List Lesson))
    (progress : List LessonProgress) (now : Nat) (e : Enrollment) : Enrollment :=
  let pct := progressPercentage sections progress
  { e with
    progress_percentage := pct
    completed_at := if pct = 100 then some now else none }

/-- The `lesson_progress` upsert of `handleProgressUpdate` (CoursePlayer.tsx
lines 83-95): `onConflict: 'enrollment_id,lesson_id'` — replace the matching
row's `watched_seconds`, `is_completed` and `last_watched_at` with the supplied
values, or append a fresh row when none matches. -/
def upsertProgress (rows : List LessonProgress) (enrollmentId lessonId : String)
    (watchedSeconds : Nat) (isCompleted : Bool) (now : Nat) : List LessonProgress :=
  if rows.any fun r => r.enrollment_id == enrollmentId && r.lesson_id == lessonId then
    rows.map fun r =>
      if r.enrollment_id == enrollmentId && r.lesson_id == lessonId then
        { r with
          watched_seconds := watchedSeconds
          is_completed := isCompleted
          last_watched_at := now }
      else r
  else
    rows ++ [{ enrollment_id := enrollmentId, lesson_id := lessonId,
               watched_seconds := watchedSeconds, is_completed := isCompleted,
               last_watched_at := now }]

/-- `handleProgressUpdate` (CoursePlayer.tsx lines 81-108): upsert the progress
row, then recompute the enrollment via `updateEnrollmentProgress`. Returns the
updated progress rows and the updated enrollment. -/
def handleProgressUpdate (sections : List (CourseSection × List Lesson))
    (progress : List LessonProgress) (enrollmentId lessonId : String)
    (watchedSeconds : Nat) (isCompleted : Bool) (now : Nat) (e : Enrollment) :
    List LessonProgress × Enrollment :=
  let progressNew := upsertProgress progress enrollmentId lessonId watchedSeconds isCompleted now
  (progressNew, updateEnrollmentProgress sections progressNew now e)

/-- Storage error surfaced to callers on a uniqueness violation. -/
inductive DBError where
  | Conflict
deriving DecidableEq

/-- `handleEnroll` (CourseDetail.tsx lines 170-189) combined with the schema's
`UNIQUE(student_id, course_id)` constraint and column defaults
(`progress_percentage` 0, `completed_at` null, `enrolled_at` now): inserting a
second enrollment for the same pair fails with a conflict. -/
def insertEnrollment (db : DB) (freshId studentId courseId : String) (now : Nat) :
    Except DBError (DB × Enrollment) :=
  if db.enrollments.any fun e => e.student_id == studentId && e.course_id == courseId then
    .error .Conflict
  else
    let e : Enrollment :=
      { id := freshId, student_id := studentId, course_id := courseId,
        enrolled_at := now, completed_at := none, progress_percentage := 0 }
    .ok ({ db with enrollments := db.enrollments ++ [e] }, e)

/-- `handleGenerateCertificate` (StudentDashboard.tsx lines 460-476): upsert
into `certificates` with `onConflict: 'enrollment_id'`. On conflict only the
supplied column `certificate_url` is replaced; `id` and `issued_at` of the
existing row are kept. Otherwise a fresh row is inserted. -/
def upsertCertificate (certs : List Certificate) (freshId enrollmentId url : String)
    (now : Nat) : List Certificate :=
  if certs.any fun c => c.enrollment_id == enrollmentId then
    certs.map fun c =>
      if c.enrollment_id == enrollmentId then { c with certificate_url := some url } else c
  else
    certs ++ [{ id := freshId, enrollment_id := enrollmentId,
                certificate_url := some url, issued_at := now }]

/-- The certificate row a caller reads back for an enrollment. -/
def certFor (certs : List Certificate) (enrollmentId : String) : Option Certificate :=
  certs.find? fun c => c.enrollment_id == enrollmentId

/-- App.tsx lines 149-154: the player view mounts `CoursePlayer` with
`courseId=""`. -/
def startLearningCourseId : String := ""

/-- All lessons reachable through the loaded sections, in order. -/
def allLessons (sections : List (CourseSection × List Lesson)) : List Lesson :=
  (sections.map Prod.snd).flatten

/-- Specification-side count: the number of lessons reachable through the
course's sections that have a completed progress row. -/
def completedLessonCount (sections : List (CourseSection × List Lesson))
    (progress : List LessonProgress) : Nat :=
  ((allLessons sections).filter fun l =>
    progress.any fun r => r.lesson_id == l.id && r.is_completed).length

/-! Concrete example data used by the individual claims. -/

/-- A course with one section and two lessons, as loaded by the player. -/
def exSectionsC1 : List (CourseSection × List Lesson) :=
  [({ id := "sec1", course_id := "c1", order_index := 0 },
    [{ id := "l1", section_id := "sec1", order_index := 0, is_preview := false },
     { id := "l2", section_id := "sec1", order_index := 1, is_preview := false }])]

/-- One completed progress row (one of the two lessons). -/
def exProgressC1 : List LessonProgress :=
  [{ enrollment_id := "e1", lesson_id := "l1", watched_seconds := 60,
     is_completed := true, last_watched_at := 4 }]

/-- An enrollment that had already been completed (`completed_at` set). -/
def exEnrC1 : Enrollment :=
  { id := "e1", student_id := "s1", course_id := "c1",
    enrolled_at := 1, completed_at := some 5, progress_percentage := 100 }

/-- C1: the claim says a recomputation below 100 leaves a non-null
`completed_at` unchanged. On the example it is erased: the enrollment had
`completed_at = some 5`, the recomputed percentage is 50, and
`updateEnrollmentProgress` writes `completed_at = none`. -/
theorem c1_counterexample :
    exEnrC1.completed_at = some 5 ∧
    progressPercentage exSectionsC1 exProgressC1 = 50 ∧
    (updateEnrollmentProgress exSectionsC1 exProgressC1 10 exEnrC1).completed_at = none := by
  decide

/-- C1 amended: completion is not one-way. Whenever a recomputation yields a
percentage below 100, `updateEnrollmentProgress` sets `completed_at` to null,
even when it was previously non-null — completion is revoked; the percentage
and `completed_at` both update. -/
theorem c1_amended (sections : List (CourseSection × List Lesson))
    (progress : List LessonProgress) (now t : Nat) (e : Enrollment)
    (h1 : e.completed_at = some t)
    (h2 : progressPercentage sections progress < 100) :
    (updateEnrollmentProgress sections progress now e).completed_at = none := by
  have hne : progressPercentage sections progress ≠ 100 := Nat.ne_of_lt h2
  simp [updateEnrollmentProgress, hne]

/-- C1 amended, instantiated: the example enrollment was completed, the
recompute yields 50 < 100, and the recomputation erases `completed_at`. -/
theorem c1_witness :
    exEnrC1.completed_at = some 5 ∧
    progressPercentage exSectionsC1 exProgressC1 < 100 ∧
    (updateEnrollmentProgress exSectionsC1 exProgressC1 10 exEnrC1).completed_at = none :=
  ⟨by decide, by decide, c1_amended exSectionsC1 exProgressC1 10 5 exEnrC1 (by decide) (by decide)⟩

/-- An enrollment that is not completed (`completed_at` null). -/
def exEnrC2 : Enrollment :=
  { id := "e1", student_id := "s1", course_id := "c1",
    enrolled_at := 1, completed_at := none, progress_percentage := 30 }

/-- State containing only the uncompleted enrollment. -/
def exDBC2 : DB :=
  { courses := [], sections := [], lessons := [], enrollments := [exEnrC2], certificates := [] }

/-- A certificate targeting that uncompleted enrollment. -/
def exCertC2 : Certificate :=
  { id := "cert1", enrollment_id := "e1", certificate_url := none, issued_at := 7 }

/-- C2: the claim says certificate creation is permitted only when the owning
enrollment's `completed_at` is non-null. The insert policy checks only
ownership: student `s1` may insert a certificate for their enrollment `e1`
although `e1.completed_at` is null, and the resulting state holds a
certificate whose enrollment is uncompleted. -/
theorem c2_counterexample :
    exEnrC2.completed_at = none ∧
    certificateInsertAllowed exDBC2 (some "s1") "e1" = true ∧
    insertCertificate exDBC2 (some "s1") exCertC2 =
      some { exDBC2 with certificates := [exCertC2] } := by
  decide

/-- C2 amended: the certificate insert policy requires exactly that the actor
is authenticated and owns the referenced enrollment; it does not consult
`completed_at`, so the permission layer does not enforce that a certificate's
enrollment is completed. -/
theorem c2_amended (db : DB) (u enrollmentId : String) :
    certificateInsertAllowed db (some u) enrollmentId = true ↔
      ∃ e ∈ db.enrollments, e.id = enrollmentId ∧ e.student_id = u := by
  simp [certificateInsertAllowed, List.any_eq_true]

/-- An unpublished course owned by instructor `i1`. -/
def exDBC3 : DB :=
  { courses := [{ id := "c1", instructor_id := "i1", is_published := false }],
    sections := [{ id := "sec1", course_id := "c1", order_index := 0 }],
    lessons := [{ id := "l1", section_id := "sec1", order_index := 0, is_preview := true }],
    enrollments := [], certificates := [] }

/-- The preview lesson under the unpublished course. -/
def exLessonC3 : Lesson :=
  { id := "l1", section_id := "sec1", order_index := 0, is_preview := true }

/-- C3: the claim says a non-enrolled student reading a lesson with
`is_preview = true` under an unpublished course succeeds. The lesson read
policy never consults `is_preview`: the read is denied. -/
theorem c3_counterexample :
    exLessonC3.is_preview = true ∧
    lessonSelectAllowed exDBC3 (some "u1") exLessonC3 = false := by
  decide

/-- C3 amended: for a student who is not the instructor of the unpublished
course and has no enrollment in it, reading any lesson under that course is
denied — `is_preview` grants no access, so preview and non-preview lessons
are denied alike. -/
theorem c3_amended (db : DB) (u : String) (l : Lesson) (c : Course)
    (hsec : ∀ cs ∈ db.sections, cs.id = l.section_id → cs.course_id = c.id)
    (hc : ∀ c2 ∈ db.courses, c2.id = c.id → c2.is_published = false ∧ c2.instructor_id ≠ u)
    (henr : ∀ e ∈ db.enrollments, e.course_id = c.id → e.student_id ≠ u) :
    lessonSelectAllowed db (some u) l = false := by
  unfold lessonSelectAllowed
  rw [List.any_eq_false]
  intro cs hcs
  simp only [Bool.and_eq_true, beq_iff_eq, not_and]
  intro hid
  simp only [Bool.not_eq_true]
  rw [List.any_eq_false]
  intro c2 hc2
  simp only [Bool.and_eq_true, beq_iff_eq, not_and]
  intro hcid
  have hcourse : cs.course_id = c.id := hsec cs hcs hid
  have hrest := hc c2 hc2 (hcid.trans hcourse)
  simp only [Bool.not_eq_true, Bool.or_eq_false_iff]
  refine ⟨⟨hrest.1, ?_⟩, ?_⟩
  · simpa [beq_iff_eq] using hrest.2
  · rw [List.any_eq_false]
    intro e he
    simp only [Bool.and_eq_true, beq_iff_eq, not_and]
    intro heid
    exact henr e he (heid.trans (hcid.trans hcourse))

/-- C3 amended, instantiated: in the example state the preview lesson under
the unpublished course is denied to the non-enrolled student `u1`. -/
theorem c3_witness :
    (∀ cs ∈ exDBC3.sections, cs.id = exLessonC3.section_id →
      cs.course_id = "c1") ∧
    lessonSelectAllowed exDBC3 (some "u1") exLessonC3 = false :=
  ⟨by decide,
   c3_amended exDBC3 "u1" exLessonC3
     { id := "c1", instructor_id := "i1", is_published := false }
     (by decide) (by decide) (by decide)⟩

/-- An existing progress row with `is_completed = true`. -/
def exProgressC4 : List LessonProgress :=
  [{ enrollment_id := "e1", lesson_id := "l1", watched_seconds := 30,
     is_completed := true, last_watched_at := 4 }]

/-- C4: the persisted row for `(e1, l1)` has `is_completed = true`; a
subsequent call with `completedFlag = false` overwrites it — the upsert
replaces `is_completed` with the supplied flag unconditionally, so the row is
un-completed, contradicting the required monotonicity. -/
theorem c4_bug_run :
    (exProgressC4.all fun r => r.is_completed) = true ∧
    upsertProgress exProgressC4 "e1" "l1" 45 false 9 =
      [{ enrollment_id := "e1", lesson_id := "l1", watched_seconds := 45,
         is_completed := false, last_watched_at := 9 }] := by
  decide

/-- An enrollment owned by student `s1` with derived fields at rest. -/
def exOldC9 : Enrollment :=
  { id := "e1", student_id := "s1", course_id := "c1",
    enrolled_at := 1, completed_at := none, progress_percentage := 10 }

/-- A direct client write bumping the derived fields. -/
def exNewC9 : Enrollment :=
  { exOldC9 with progress_percentage := 100, completed_at := some 99 }

/-- C9: the claim says no actor can set `progress_percentage` or
`completed_at` through a permitted storage write. The enrollment update
policy checks only ownership: the owning student may rewrite both derived
fields directly. -/
theorem c9_counterexample :
    enrollmentUpdateAllowed (some "s1") exOldC9 exNewC9 = true ∧
    exOldC9.progress_percentage = 10 ∧ exNewC9.progress_percentage = 100 ∧
    exOldC9.completed_at = none ∧ exNewC9.completed_at = some 99 := by
  decide

/-- C9 amended: the owning student can set `progress_percentage` and
`completed_at` to arbitrary values through a permitted enrollment update —
the policy constrains only `student_id`; the engine's own recomputation uses
exactly this direct-write path. -/
theorem c9_amended (u : String) (e : Enrollment) (pct : Nat) (ca : Option Nat)
    (h : e.student_id = u) :
    enrollmentUpdateAllowed (some u) e
      { e with progress_percentage := pct, completed_at := ca } = true := by
  simp [enrollmentUpdateAllowed, h]

/-- C9 amended, instantiated: student `s1` owns the example enrollment and is
allowed to write percentage 100 and a non-null `completed_at` directly. -/
theorem c9_witness :
    exOldC9.student_id = "s1" ∧
    enrollmentUpdateAllowed (some "s1") exOldC9
      { exOldC9 with progress_percentage := 100, completed_at := some 99 } = true :=
  ⟨rfl, c9_amended "s1" exOldC9 100 (some 99) rfl⟩

/-- A course whose only lesson is `l1`. -/
def exSectionsC6 : List (CourseSection × List Lesson) :=
  [({ id := "sec1", course_id := "c1", order_index := 0 },
    [{ id := "l1", section_id := "sec1", order_index := 0, is_preview := false }])]

/-- An enrollment in that course. -/
def exEnrC6 : Enrollment :=
  { id := "e1", student_id := "s1", course_id := "c1",
    enrolled_at := 1, completed_at := none, progress_percentage := 0 }

/-- C6: the claim says a call whose lesson is not reachable through the
course's sections fails with `LessonNotInCourse` and creates no row. Lesson
`lX` is not among the course's lessons, yet the call performs the upsert and a
progress row for `lX` is created. -/
theorem c6_counterexample :
    ((allLessons exSectionsC6).map Lesson.id = ["l1"]) ∧
    (handleProgressUpdate exSectionsC6 [] "e1" "lX" 30 false 7 exEnrC6).1 =
      [{ enrollment_id := "e1", lesson_id := "lX", watched_seconds := 30,
         is_completed := false, last_watched_at := 7 }] := by
  decide

/-- C6 amended: `handleProgressUpdate` performs no lesson-membership check.
The written progress rows do not depend on the loaded sections at all, and for
any lesson id whatsoever the call leaves a row carrying the supplied values. -/
theorem c6_amended (sections : List (CourseSection × List Lesson))
    (progress : List LessonProgress) (eid lid : String) (w : Nat) (c : Bool)
    (now : Nat) (e : Enrollment) :
    (handleProgressUpdate sections progress eid lid w c now e).1 =
      upsertProgress progress eid lid w c now ∧
    ∃ r ∈ (handleProgressUpdate sections progress eid lid w c now e).1,
      r.enrollment_id = eid ∧ r.lesson_id = lid ∧ r.watched_seconds = w ∧
      r.is_completed = c ∧ r.last_watched_at = now := by
  refine ⟨rfl, ?_⟩
  show ∃ r ∈ upsertProgress progress eid lid w c now, _
  unfold upsertProgress
  by_cases hany : (progress.any fun r => r.enrollment_id == eid && r.lesson_id == lid) = true
  · rcases List.any_eq_true.mp hany with ⟨r0, hr0, hb⟩
    rw [if_pos hany]
    refine ⟨{ r0 with watched_seconds := w, is_completed := c, last_watched_at := now },
      List.mem_map.mpr ⟨r0, hr0, by rw [if_pos hb]⟩, ?_⟩
    have hb' : (r0.enrollment_id == eid) = true ∧ (r0.lesson_id == lid) = true := by
      simpa [Bool.and_eq_true] using hb
    exact ⟨beq_iff_eq.mp hb'.1, beq_iff_eq.mp hb'.2, rfl, rfl, rfl⟩
  · rw [if_neg hany]
    exact ⟨{ enrollment_id := eid, lesson_id := lid, watched_seconds := w,
             is_completed := c, last_watched_at := now },
      List.mem_append_right _ (List.mem_singleton_self _), rfl, rfl, rfl, rfl, rfl⟩

/-- C7: for a student with no enrollment in the course, the first `enroll`
succeeds and creates a row with `progress_percentage = 0` and null
`completed_at`; the second call for the same pair hits the
`UNIQUE(student_id, course_id)` constraint and fails with a conflict, and
exactly one enrollment row for the pair exists afterward. -/
theorem c7_theorem (db : DB) (id1 id2 s c : String) (t1 t2 : Nat)
    (h : (db.enrollments.any fun e => e.student_id == s && e.course_id == c) = false) :
    ∃ db1 e1, insertEnrollment db id1 s c t1 = .ok (db1, e1) ∧
      e1.progress_percentage = 0 ∧ e1.completed_at = none ∧
      e1.student_id = s ∧ e1.course_id = c ∧
      insertEnrollment db1 id2 s c t2 = .error DBError.Conflict ∧
      (db1.enrollments.filter fun e => e.student_id == s && e.course_id == c).length = 1 := by
  have hnot : ¬((db.enrollments.any fun e => e.student_id == s && e.course_id == c) = true) := by
    simp [h]
  set e1 : Enrollment :=
    { id := id1, student_id := s, course_id := c, enrolled_at := t1,
      completed_at := none, progress_percentage := 0 } with he1
  set db1 : DB := { db with enrollments := db.enrollments ++ [e1] } with hdb1
  refine ⟨db1, e1, ?_, rfl, rfl, rfl, rfl, ?_, ?_⟩
  · unfold insertEnrollment
    rw [if_neg hnot]
  · have hany : (db1.enrollments.any fun x => x.student_id == s && x.course_id == c) = true := by
      simp [hdb1, List.any_append, he1]
    unfold insertEnrollment
    rw [if_pos hany]
  · have hsplit : db1.enrollments = db.enrollments ++ [e1] := rfl
    rw [hsplit, List.filter_append,
      List.filter_eq_nil_iff.mpr (by simpa [List.any_eq_false] using h)]
    simp [he1]

/-- A state in which student `s1` is not yet enrolled in course `c1`. -/
def exDBC7 : DB :=
  { courses := [{ id := "c1", instructor_id := "i1", is_published := true }],
    sections := [], lessons := [],
    enrollments := [{ id := "e0", student_id := "s2", course_id := "c1",
                      enrolled_at := 0, completed_at := none, progress_percentage := 0 }],
    certificates := [] }

/-- C7 instantiated: in the example state, the double enrollment of `s1` in
`c1` succeeds once and then conflicts, leaving one row for the pair. -/
theorem c7_witness :
    (exDBC7.enrollments.any fun e => e.student_id == "s1" && e.course_id == "c1") = false ∧
    ∃ db1 e1, insertEnrollment exDBC7 "e1" "s1" "c1" 3 = .ok (db1, e1) ∧
      e1.progress_percentage = 0 ∧ e1.completed_at = none ∧
      e1.student_id = "s1" ∧ e1.course_id = "c1" ∧
      insertEnrollment db1 "e2" "s1" "c1" 4 = .error DBError.Conflict ∧
      (db1.enrollments.filter fun e => e.student_id == "s1" && e.course_id == "c1").length = 1 :=
  ⟨by decide, c7_theorem exDBC7 "e1" "e2" "s1" "c1" 3 4 (by decide)⟩

/-- C8: on a completed enrollment with no existing certificate, issuing twice
is idempotent. Both calls leave a certificate with the id minted by the first
call; the second call replaces only the artifact url (`issued_at` and `id` of
the existing row are kept, the second fresh id is discarded) and does not
error; exactly one certificate row for the enrollment exists. -/
theorem c8_theorem (certs : List Certificate) (e : Enrollment)
    (id1 id2 url1 url2 : String) (t1 t2 : Nat)
    (hcomp : e.completed_at ≠ none)
    (hnone : (certs.any fun c => c.enrollment_id == e.id) = false) :
    certFor (upsertCertificate certs id1 e.id url1 t1) e.id =
      some { id := id1, enrollment_id := e.id, certificate_url := some url1, issued_at := t1 } ∧
    certFor (upsertCertificate (upsertCertificate certs id1 e.id url1 t1) id2 e.id url2 t2) e.id =
      some { id := id1, enrollment_id := e.id, certificate_url := some url2, issued_at := t1 } ∧
    ((upsertCertificate (upsertCertificate certs id1 e.id url1 t1) id2 e.id url2 t2).filter
      fun c => c.enrollment_id == e.id).length = 1 := by
  have hall : ∀ x ∈ certs, (x.enrollment_id == e.id) = false := by
    intro x hx
    have := List.any_eq_false.mp hnone x hx
    simpa using this
  have hfind : certs.find? (fun c => c.enrollment_id == e.id) = none :=
    List.find?_eq_none.mpr (by intro x hx; simp [hall x hx])
  set row1 : Certificate :=
    { id := id1, enrollment_id := e.id, certificate_url := some url1, issued_at := t1 }
  have hstep1 : upsertCertificate certs id1 e.id url1 t1 = certs ++ [row1] := by
    unfold upsertCertificate
    rw [if_neg (by simp [hnone])]
  have hrow1 : (row1.enrollment_id == e.id) = true := by simp [row1]
  have hany1 : ((certs ++ [row1]).any fun c => c.enrollment_id == e.id) = true := by
    rw [List.any_append]
    simp [hrow1]
  set row2 : Certificate :=
    { id := id1, enrollment_id := e.id, certificate_url := some url2, issued_at := t1 }
  have hstep2 : upsertCertificate (certs ++ [row1]) id2 e.id url2 t2 = certs ++ [row2] := by
    unfold upsertCertificate
    rw [if_pos hany1, List.map_append]
    congr 1
    · calc certs.map (fun c => if c.enrollment_id == e.id
            then { c with certificate_url := some url2 } else c)
          = certs.map id := by
            apply List.map_congr_left
            intro a ha
            rw [if_neg (by simp [hall a ha])]
            rfl
        _ = certs := List.map_id certs
    · simp [row1, row2]
  refine ⟨?_, ?_, ?_⟩
  · rw [hstep1]
    unfold certFor
    rw [List.find?_append, hfind]
    simp [row1]
  · rw [hstep1, hstep2]
    unfold certFor
    rw [List.find?_append, hfind]
    simp [row2]
  · rw [hstep1, hstep2, List.filter_append]
    rw [List.filter_eq_nil_iff.mpr (by intro a ha; simp [hall a ha])]
    simp [row2]

/-- A completed enrollment with no certificate yet. -/
def exEnrC8 : Enrollment :=
  { id := "e1", student_id := "s1", course_id := "c1",
    enrolled_at := 1, completed_at := some 3, progress_percentage := 100 }

/-- C8 instantiated: issuing twice from an empty certificate table returns the
first id both times, keeps one row, and only the artifact url changes. -/
theorem c8_witness :
    exEnrC8.completed_at ≠ none ∧
    certFor (upsertCertificate [] "cert1" exEnrC8.id "urlA" 5) exEnrC8.id =
      some { id := "cert1", enrollment_id := exEnrC8.id,
             certificate_url := some "urlA", issued_at := 5 } ∧
    certFor (upsertCertificate (upsertCertificate [] "cert1" exEnrC8.id "urlA" 5)
        "cert2" exEnrC8.id "urlB" 6) exEnrC8.id =
      some { id := "cert1", enrollment_id := exEnrC8.id,
             certificate_url := some "urlB", issued_at := 5 } ∧
    ((upsertCertificate (upsertCertificate [] "cert1" exEnrC8.id "urlA" 5)
        "cert2" exEnrC8.id "urlB" 6).filter
      fun c => c.enrollment_id == exEnrC8.id).length = 1 := by
  have h := c8_theorem [] exEnrC8 "cert1" "cert2" "urlA" "urlB" 5 6 (by decide) (by decide)
  exact ⟨by decide, h.1, h.2.1, h.2.2⟩

/-- C10: the player view passes `courseId = ""`. Since every section's
`course_id` references an actual course id (non-empty uuid),
`loadCourseContent` finds zero sections; every progress update through this
view therefore writes `progress_percentage = 0` and `completed_at = null`,
regardless of the progress rows. -/
theorem c10_theorem (db : DB) (progress : List LessonProgress) (eid lid : String)
    (w : Nat) (c : Bool) (now : Nat) (e : Enrollment)
    (h : ∀ s ∈ db.sections, s.course_id ≠ "") :
    loadCourseContent db startLearningCourseId = [] ∧
    (handleProgressUpdate (loadCourseContent db startLearningCourseId)
      progress eid lid w c now e).2.progress_percentage = 0 ∧
    (handleProgressUpdate (loadCourseContent db startLearningCourseId)
      progress eid lid w c now e).2.completed_at = none := by
  have hfil : (db.sections.filter fun s => s.course_id == startLearningCourseId) = [] := by
    apply List.filter_eq_nil_iff.mpr
    intro s hs
    simpa [startLearningCourseId] using h s hs
  have hload : loadCourseContent db startLearningCourseId = [] := by
    unfold loadCourseContent
    rw [hfil]
    simp
  rw [hload]
  exact ⟨rfl, by simp [handleProgressUpdate, updateEnrollmentProgress,
    progressPercentage, totalLessons], by simp [handleProgressUpdate,
    updateEnrollmentProgress, progressPercentage, totalLessons]⟩

/-- The player's `totalLessons` fold equals the number of lessons reachable
through the loaded sections. -/
theorem totalLessons_eq_length (ss : List (CourseSection × List Lesson)) :
    totalLessons ss = (allLessons ss).length := by
  suffices hgen : ∀ n : Nat, ss.foldl (fun sum s => sum + s.2.length) n =
      n + (allLessons ss).length by
    simpa [totalLessons] using hgen 0
  induction ss with
  | nil => intro n; simp [allLessons]
  | cons hd tl ih =>
    intro n
    rw [List.foldl_cons, ih (n + hd.2.length)]
    simp [allLessons]
    omega

/-- Counting helper: filtering a duplicate-free list down to the elements of a
duplicate-free sublist of its members recovers exactly that many elements. -/
theorem length_filter_mem {α : Type*} [DecidableEq α] (ids keys : List α)
    (hids : ids.Nodup) (hknd : keys.Nodup) (hsub : ∀ k ∈ keys, k ∈ ids) :
    (ids.filter fun i => decide (i ∈ keys)).length = keys.length := by
  have hnf : (ids.filter fun i => decide (i ∈ keys)).Nodup := hids.filter _
  rw [← List.toFinset_card_of_nodup hnf, ← List.toFinset_card_of_nodup hknd]
  congr 1
  rw [List.toFinset_filter]
  ext x
  simp only [Finset.mem_filter, List.mem_toFinset, decide_eq_true_iff]
  exact ⟨fun h => h.2, fun hx => ⟨hsub x hx, hx⟩⟩

/-- When each progress row is keyed by a distinct lesson, lesson ids are
distinct, and every completed row points at a lesson reachable through the
sections, the player's raw completed-row count (CoursePlayer.tsx line 113)
equals the number of reachable lessons having a completed row. -/
theorem completedLessons_eq_count (sections : List (CourseSection × List Lesson))
    (rows : List LessonProgress)
    (hmem : ∀ r ∈ rows, r.is_completed = true →
      r.lesson_id ∈ (allLessons sections).map Lesson.id)
    (hkeys : (rows.map LessonProgress.lesson_id).Nodup)
    (hids : ((allLessons sections).map Lesson.id).Nodup) :
    completedLessons rows = completedLessonCount sections rows := by
  classical
  have hknd : (((rows.filter fun r => r.is_completed).map LessonProgress.lesson_id)).Nodup :=
    hkeys.sublist ((List.filter_sublist rows).map LessonProgress.lesson_id)
  have hsubset : ∀ k ∈ (rows.filter fun r => r.is_completed).map LessonProgress.lesson_id,
      k ∈ (allLessons sections).map Lesson.id := by
    intro k hk
    rcases List.mem_map.mp hk with ⟨r, hr, hre⟩
    rcases List.mem_filter.mp hr with ⟨hrmem, hrc⟩
    exact hre ▸ hmem r hrmem (by simpa using hrc)
  have hiff : ∀ l : Lesson,
      ((rows.any fun r => r.lesson_id == l.id && r.is_completed) = true ↔
        l.id ∈ (rows.filter fun r => r.is_completed).map LessonProgress.lesson_id) := by
    intro l
    constructor
    · intro hany
      rcases List.any_eq_true.mp hany with ⟨r, hr, hb⟩
      have hb' : r.lesson_id = l.id ∧ r.is_completed = true := by
        simpa [Bool.and_eq_true, beq_iff_eq] using hb
      exact List.mem_map.mpr ⟨r, List.mem_filter.mpr ⟨hr, by simp [hb'.2]⟩, hb'.1⟩
    · intro hkmem
      rcases List.mem_map.mp hkmem with ⟨r, hr, hre⟩
      rcases List.mem_filter.mp hr with ⟨hrmem, hrc⟩
      refine List.any_eq_true.mpr ⟨r, hrmem, ?_⟩
      have hrc' : r.is_completed = true := by simpa using hrc
      simp [hre, hrc']
  calc completedLessons rows
      = ((rows.filter fun r => r.is_completed).map LessonProgress.lesson_id).length :=
        (List.length_map _ _).symm
    _ = (((allLessons sections).map Lesson.id).filter fun i =>
          decide (i ∈ (rows.filter fun r => r.is_completed).map
            LessonProgress.lesson_id)).length :=
        (length_filter_mem _ _ hids hknd hsubset).symm
    _ = ((allLessons sections).filter fun l =>
          decide (l.id ∈ (rows.filter fun r => r.is_completed).map
            LessonProgress.lesson_id)).length := by
        rw [← List.countP_eq_length_filter, ← List.countP_eq_length_filter,
          List.countP_map]
        rfl
    _ = completedLessonCount sections rows := by
        unfold completedLessonCount
        congr 1
        apply List.filter_congr
        intro l _
        rw [Bool.eq_iff_iff, decide_eq_true_iff]
        exact (hiff l).symm

/-- C5: after an upsert, for a well-formed state (distinct progress keys,
distinct lesson ids, completed rows pointing at reachable lessons) the
recomputation writes `round(100 * completed_count / total_lesson_count)` over
the lessons reachable through the course's sections, and 0 when there are no
lessons. -/
theorem c5_theorem (sections : List (CourseSection × List Lesson))
    (rows : List LessonProgress) (now : Nat) (e : Enrollment)
    (hmem : ∀ r ∈ rows, r.is_completed = true →
      r.lesson_id ∈ (allLessons sections).map Lesson.id)
    (hkeys : (rows.map LessonProgress.lesson_id).Nodup)
    (hids : ((allLessons sections).map Lesson.id).Nodup) :
    (updateEnrollmentProgress sections rows now e).progress_percentage =
      if totalLessons sections = 0 then 0
      else mathRound (100 * completedLessonCount sections rows) (totalLessons sections) := by
  have hcount := completedLessons_eq_count sections rows hmem hkeys hids
  by_cases h0 : totalLessons sections = 0
  · simp [updateEnrollmentProgress, progressPercentage, h0]
  · have hpos : 0 < totalLessons sections := Nat.pos_of_ne_zero h0
    simp [updateEnrollmentProgress, progressPercentage, h0, hpos, hcount, Nat.mul_comm]

/-- A course with one section and four lessons. -/
def exSectionsC5 : List (CourseSection × List Lesson) :=
  [({ id := "sec1", course_id := "c1", order_index := 0 },
    [{ id := "l1", section_id := "sec1", order_index := 0, is_preview := false },
     { id := "l2", section_id := "sec1", order_index := 1, is_preview := false },
     { id := "l3", section_id := "sec1", order_index := 2, is_preview := false },
     { id := "l4", section_id := "sec1", order_index := 3, is_preview := false }])]

/-- The same course after a fifth lesson was added. -/
def exSectionsC5b : List (CourseSection × List Lesson) :=
  [({ id := "sec1", course_id := "c1", order_index := 0 },
    [{ id := "l1", section_id := "sec1", order_index := 0, is_preview := false },
     { id := "l2", section_id := "sec1", order_index := 1, is_preview := false },
     { id := "l3", section_id := "sec1", order_index := 2, is_preview := false },
     { id := "l4", section_id := "sec1", order_index := 3, is_preview := false },
     { id := "l5", section_id := "sec1", order_index := 4, is_preview := false }])]

/-- Two of the lessons are completed. -/
def exRowsC5 : List LessonProgress :=
  [{ enrollment_id := "e1", lesson_id := "l1", watched_seconds := 60,
     is_completed := true, last_watched_at := 4 },
   { enrollment_id := "e1", lesson_id := "l2", watched_seconds := 45,
     is_completed := true, last_watched_at := 5 }]

/-- The enrollment being recomputed. -/
def exEnrC5 : Enrollment :=
  { id := "e1", student_id := "s1", course_id := "c1",
    enrolled_at := 1, completed_at := none, progress_percentage := 25 }

/-- C5 instantiated: 2 completed of 4 lessons yields 50; after a fifth lesson
is added the same rows yield 40 on the next recompute. -/
theorem c5_witness :
    (updateEnrollmentProgress exSectionsC5 exRowsC5 9 exEnrC5).progress_percentage =
      (if totalLessons exSectionsC5 = 0 then 0
       else mathRound (100 * completedLessonCount exSectionsC5 exRowsC5)
         (totalLessons exSectionsC5)) ∧
    (updateEnrollmentProgress exSectionsC5 exRowsC5 9 exEnrC5).progress_percentage = 50 ∧
    (updateEnrollmentProgress exSectionsC5b exRowsC5 9 exEnrC5).progress_percentage = 40 :=
  ⟨c5_theorem exSectionsC5 exRowsC5 9 exEnrC5 (by decide) (by decide) (by decide),
   by decide, by decide⟩

/-- A state with a real course, a section and completed progress rows. -/
def exDBC10 : DB :=
  { courses := [{ id := "c1", instructor_id := "i1", is_published := true }],
    sections := [{ id := "sec1", course_id := "c1", order_index := 0 }],
    lessons := [{ id := "l1", section_id := "sec1", order_index := 0, is_preview := false }],
    enrollments := [], certificates := [] }

/-- Progress rows in which the sole lesson of the course is completed. -/
def exProgressC10 : List LessonProgress :=
  [{ enrollment_id := "e1", lesson_id := "l1", watched_seconds := 60,
     is_completed := true, last_watched_at := 4 }]

/-- An enrollment whose displayed percentage was 100. -/
def exEnrC10 : Enrollment :=
  { id := "e1", student_id := "s1", course_id := "c1",
    enrolled_at := 1, completed_at := some 5, progress_percentage := 100 }

/-- C10 instantiated: even with every actual lesson completed, a progress
update through the player view mounted with `courseId = ""` writes percentage
0 and null `completed_at`. -/
theorem c10_witness :
    (∀ s ∈ exDBC10.sections, s.course_id ≠ "") ∧
    loadCourseContent exDBC10 startLearningCourseId = [] ∧
    (handleProgressUpdate (loadCourseContent exDBC10 startLearningCourseId)
      exProgressC10 "e1" "l1" 60 true 9 exEnrC10).2.progress_percentage = 0 ∧
    (handleProgressUpdate (loadCourseContent exDBC10 startLearningCourseId)
      exProgressC10 "e1" "l1" 60 true 9 exEnrC10).2.completed_at = none := by
  have h := c10_theorem exDBC10 exProgressC10 "e1" "l1" 60 true 9 exEnrC10 (by decide)
  exact ⟨by decide, h.1, h.2.1, h.2.2⟩

end LP
